import Mathlib

/-!
Verification development for the `hearth` home-automation runtime.

The Rust sources are shallowly embedded:
* `u64` is modelled as `Nat` and `i64` as `Int`; where two's-complement
  reinterpretation casts occur in the source they are modelled explicitly
  with `% 2^64`. Range side conditions (`n < 2^64`, `i64Min ≤ n ≤ i64Max`)
  appear as hypotheses of the theorems.
* `f64` is modelled as an exact rational together with an explicit NaN
  (`F64`). Comparisons and equality on non-NaN floats are exact in both the
  model and the machine; no claim settled here depends on rounding of
  `as f64` casts, which are therefore modelled as the exact injection.
* `HashMap`s are modelled as association lists with key-unique insert
  semantics; mutation through `&mut` is modelled by returning the new value,
  and shared mutable state (`Arc<RwLock<..>>`) by an explicit heap of cells.
-/

/-! ### Machine integers (domain/number.rs uses u64 / i64 / i128) -/

/-- `u64::MAX`. -/
def u64Max : Nat := 2 ^ 64 - 1

/-- `i64::MIN`. -/
def i64Min : Int := -(2 ^ 63)

/-- `i64::MAX`. -/
def i64Max : Int := 2 ^ 63 - 1

/-- `u64::saturating_add`. -/
def u64SaturatingAdd (a b : Nat) : Nat := min (a + b) u64Max

/-- `i64::saturating_add`. -/
def i64SaturatingAdd (a b : Int) : Int := max i64Min (min (a + b) i64Max)

/-- `i64::saturating_sub`. -/
def i64SaturatingSub (a b : Int) : Int := max i64Min (min (a - b) i64Max)

/-- The Rust cast `b as u64` for `b : i64`: two's-complement reinterpretation,
i.e. reduction modulo `2^64`. -/
def i64AsU64 (b : Int) : Nat := (b % (2 ^ 64 : Int)).toNat

/-- The Rust cast `b as i64` for `b : u64`: two's-complement reinterpretation. -/
def u64AsI64 (b : Nat) : Int := ((b : Int) + 2 ^ 63) % 2 ^ 64 - 2 ^ 63

/-- The Rust cast `s as i64` for `s : i128`: wrap into the i64 range. -/
def i128AsI64 (s : Int) : Int := (s + 2 ^ 63) % 2 ^ 64 - 2 ^ 63

/-! ### `f64`, modelled as an exact rational plus an explicit NaN -/

/-- Model of an `f64` value: either NaN or an exact (rational) value.
Every comparison in the source only distinguishes NaN from ordered values,
so the rounding of the binary format is irrelevant for the claims below. -/
inductive F64 where
  | nan : F64
  | val (q : ℚ) : F64
deriving DecidableEq, Repr

/-- `f64` addition: NaN is absorbing, otherwise exact. -/
def f64Add : F64 → F64 → F64
  | F64.nan, _ => F64.nan
  | _, F64.nan => F64.nan
  | F64.val a, F64.val b => F64.val (a + b)

/-- `f64::partial_cmp`: `None` when either operand is NaN. -/
def f64Cmp : F64 → F64 → Option Ordering
  | F64.nan, _ => none
  | _, F64.nan => none
  | F64.val a, F64.val b => some (if a < b then Ordering.lt else if a = b then Ordering.eq else Ordering.gt)

/-- `f64` `==`: false when either operand is NaN. -/
def f64Eq : F64 → F64 → Bool
  | F64.val a, F64.val b => a = b
  | _, _ => false

/-- `f64` `<`: false when either operand is NaN. -/
def f64Lt : F64 → F64 → Bool
  | F64.val a, F64.val b => a < b
  | _, _ => false

/-- `f64` `>`: false when either operand is NaN. -/
def f64Gt : F64 → F64 → Bool
  | F64.val a, F64.val b => b < a
  | _, _ => false

/-- The Rust cast `n as f64` for `n : u64`, modelled as the exact injection. -/
def u64AsF64 (n : Nat) : F64 := F64.val n

/-- The Rust cast `n as f64` for `n : i64`, modelled as the exact injection. -/
def i64AsF64 (n : Int) : F64 := F64.val n

/-! ### `Number` (src/domain/number.rs) -/

/-- `Number` from src/domain/number.rs: a sum of u64 / i64 / f64. -/
inductive Number where
  | positiveInt (n : Nat) : Number
  | negativeInt (n : Int) : Number
  | float (x : F64) : Number
deriving DecidableEq, Repr

/-- Well-formedness: the payloads are in the ranges of the machine types. -/
def Number.WF : Number → Prop
  | Number.positiveInt n => n < 2 ^ 64
  | Number.negativeInt n => i64Min ≤ n ∧ n ≤ i64Max
  | Number.float _ => True

/-- `impl Add for Number` (src/domain/number.rs lines 44-69), arm by arm.
Note the `sum >= 0` mixed-sign branches compute `a.saturating_add(b as u64)`
(resp. `b.saturating_add(a as u64)`), with a two's-complement cast of the
`i64` operand. -/
def Number.add : Number → Number → Number
  | Number.positiveInt a, Number.positiveInt b => Number.positiveInt (u64SaturatingAdd a b)
  | Number.positiveInt a, Number.negativeInt b =>
      if (a : Int) + b ≥ 0 then Number.positiveInt (u64SaturatingAdd a (i64AsU64 b))
      else Number.negativeInt (i128AsI64 ((a : Int) + b))
  | Number.negativeInt a, Number.positiveInt b =>
      if a + (b : Int) ≥ 0 then Number.positiveInt (u64SaturatingAdd b (i64AsU64 a))
      else Number.negativeInt (i128AsI64 (a + (b : Int)))
  | Number.negativeInt a, Number.negativeInt b => Number.negativeInt (i64SaturatingAdd a b)
  | Number.float a, Number.float b => Number.float (f64Add a b)
  | Number.float a, Number.positiveInt b => Number.float (f64Add a (u64AsF64 b))
  | Number.float a, Number.negativeInt b => Number.float (f64Add a (i64AsF64 b))
  | Number.positiveInt a, Number.float b => Number.float (f64Add (u64AsF64 a) b)
  | Number.negativeInt a, Number.float b => Number.float (f64Add (i64AsF64 a) b)

/-- `Ord`-style comparison of two `Nat`s (`u64::partial_cmp`, always `Some`). -/
def natCmp (a b : Nat) : Ordering := if a < b then Ordering.lt else if a = b then Ordering.eq else Ordering.gt

/-- `Ord`-style comparison of two `Int`s (`i64::partial_cmp`, always `Some`). -/
def intCmp (a b : Int) : Ordering := if a < b then Ordering.lt else if a = b then Ordering.eq else Ordering.gt

/-- `impl PartialOrd for Number` (src/domain/number.rs lines 101-129), arm by
arm. The name stands for Rust's `partial_cmp`. -/
def Number.pcmp : Number → Number → Option Ordering
  | Number.positiveInt a, Number.positiveInt b => some (natCmp a b)
  | Number.negativeInt a, Number.negativeInt b => some (intCmp a b)
  | Number.positiveInt a, Number.negativeInt b =>
      if b < 0 then some Ordering.gt else some (natCmp a (i64AsU64 b))
  | Number.negativeInt a, Number.positiveInt b =>
      if a < 0 then some Ordering.lt else some (intCmp a (u64AsI64 b))
  | Number.float a, Number.float b => f64Cmp a b
  | Number.float a, Number.positiveInt b => f64Cmp a (u64AsF64 b)
  | Number.float a, Number.negativeInt b => f64Cmp a (i64AsF64 b)
  | Number.positiveInt a, Number.float b => f64Cmp (u64AsF64 a) b
  | Number.negativeInt a, Number.float b => f64Cmp (i64AsF64 a) b

/-- `impl PartialEq for Number` (src/domain/number.rs lines 131-144), arm by
arm; the final `_ => false` catch-all covers the two mixed integer pairings. -/
def Number.beq : Number → Number → Bool
  | Number.positiveInt a, Number.positiveInt b => a = b
  | Number.negativeInt a, Number.negativeInt b => a = b
  | Number.float a, Number.float b => f64Eq a b
  | Number.float a, Number.positiveInt b => f64Eq a (u64AsF64 b)
  | Number.float a, Number.negativeInt b => f64Eq a (i64AsF64 b)
  | Number.positiveInt a, Number.float b => f64Eq (u64AsF64 a) b
  | Number.negativeInt a, Number.float b => f64Eq (i64AsF64 a) b
  | _, _ => false

/-! ### Association lists (model of `HashMap` with unique keys) -/

/-- `HashMap::get`. -/
def alFind {β : Type} : List (String × β) → String → Option β
  | [], _ => none
  | (k, v) :: rest, key => if k = key then some v else alFind rest key

/-- `HashMap::insert` (replaces an existing binding). -/
def alInsert {β : Type} : List (String × β) → String → β → List (String × β)
  | [], key, v => [(key, v)]
  | (k, w) :: rest, key, v => if k = key then (k, v) :: rest else (k, w) :: alInsert rest key v

/-- `HashMap::extend`: fold the source bindings through `alInsert`. -/
def alExtend {β : Type} (m src : List (String × β)) : List (String × β) :=
  src.foldl (fun acc kv => alInsert acc kv.1 kv.2) m

/-- The value of the last binding of `key`, if any (later `insert`s win). -/
def alFindLast {β : Type} : List (String × β) → String → Option β
  | [], _ => none
  | (k, v) :: rest, key =>
      match alFindLast rest key with
      | some w => some w
      | none => if k = key then some v else none

/-! ### `Value` and the expression DSL (src/flow_engine/expression.rs) -/

/-- `Value` from src/flow_engine/expression.rs. -/
inductive Value where
  | boolean (b : Bool) : Value
  | number (n : Number) : Value
  | none : Value
deriving DecidableEq, Repr

/-- `Weekday` from src/domain/weekday.rs. -/
inductive Weekday where
  | monday | tuesday | wednesday | thursday | friday | saturday | sunday
deriving DecidableEq, Repr

/-- `Weekday::as_index`. -/
def Weekday.asIndex : Weekday → Nat
  | Weekday.monday => 0
  | Weekday.tuesday => 1
  | Weekday.wednesday => 2
  | Weekday.thursday => 3
  | Weekday.friday => 4
  | Weekday.saturday => 5
  | Weekday.sunday => 6

/-- `Weekday::all`. -/
def Weekday.all : List Weekday :=
  [Weekday.monday, Weekday.tuesday, Weekday.wednesday, Weekday.thursday,
   Weekday.friday, Weekday.saturday, Weekday.sunday]

/-- `WeekdayCondition` from src/flow_engine/expression.rs. -/
inductive WeekdayCondition where
  | specific (day : Weekday)
  | range (start stop : Weekday)
  | set (days : List Weekday)
  | weekdays
  | weekend
deriving DecidableEq, Repr

/-- `WeekdayCondition::included_days` (src/flow_engine/expression.rs lines
70-85): slices `Weekday::all()` for `Range`, hard-codes the weekday lists. -/
def WeekdayCondition.includedDays : WeekdayCondition → List Weekday
  | WeekdayCondition.specific day => [day]
  | WeekdayCondition.range start stop =>
      (Weekday.all.drop start.asIndex).take (stop.asIndex + 1 - start.asIndex)
  | WeekdayCondition.set days => days
  | WeekdayCondition.weekdays =>
      [Weekday.monday, Weekday.tuesday, Weekday.wednesday, Weekday.thursday, Weekday.friday]
  | WeekdayCondition.weekend => [Weekday.saturday, Weekday.sunday]

/-- `Time` from src/flow_engine/expression.rs: hour and minute as `u8`. -/
structure Time where
  hour : Nat
  minute : Nat
deriving DecidableEq, Repr

/-- `TemporalExpression` from src/flow_engine/expression.rs. -/
inductive TemporalExpression where
  | isToday (when : WeekdayCondition)
  | isBeforeTime (time : Time)
  | isAfterTime (time : Time)
  | hasSunRisen
  | hasSunSet
  | isDaytime
  | isNighttime
deriving DecidableEq, Repr

/-- `Expression` from src/flow_engine/expression.rs. -/
inductive Expression where
  | greaterThanOrEqualTo (lhs rhs : Expression)
  | greaterThan (lhs rhs : Expression)
  | lessThan (lhs rhs : Expression)
  | lessThanOrEqualTo (lhs rhs : Expression)
  | equalTo (lhs rhs : Expression)
  | notEqualTo (lhs rhs : Expression)
  | and (lhs rhs : Expression)
  | or (lhs rhs : Expression)
  | not (expression : Expression)
  | literal (value : Value)
  | propertyValue (deviceId propertyId : String)
  | temporal (expression : TemporalExpression)
deriving DecidableEq, Repr

/-! ### Properties (src/domain/property/) -/

/-- `PropertyType` from src/domain/property/property.rs. -/
inductive PropertyType where
  | brightness | color | colorTemperature | on
deriving DecidableEq, Repr

/-- `PropertyError`. src/domain/property/property.rs declares `ReadOnly`,
`ValueTooSmall`, `ValueTooLarge` and `MissingProperty`; the setters in
src/domain/property/number_property.rs additionally use
`IncorrectValueType`, so the model carries all five constructors. -/
inductive PropertyError where
  | readOnly
  | valueTooSmall
  | valueTooLarge
  | missingProperty
  | incorrectValueType
deriving DecidableEq, Repr

/-- `BooleanProperty` from src/domain/property/boolean_property.rs. -/
structure BooleanProperty where
  name : String
  propertyType : PropertyType
  readonly : Bool
  externalId : Option String
  value : Bool
deriving DecidableEq, Repr

/-- `BooleanProperty::set_value` (src/domain/property/boolean_property.rs
lines 28-35). The pair returns the `Result` together with the state of the
property after the call (`&mut self` in the source). -/
def BooleanProperty.setValue (p : BooleanProperty) (v : Bool) :
    Except PropertyError Unit × BooleanProperty :=
  if p.readonly then (Except.error PropertyError.readOnly, p)
  else (Except.ok (), { p with value := v })

/-- `Unit` from src/domain/property/number_property.rs (measurement unit). -/
inductive NumberUnit where
  | percentage | lux | degreesCelsius | kelvin
deriving DecidableEq, Repr

/-- `NumberProperty` from src/domain/property/number_property.rs. -/
structure NumberProperty where
  name : String
  propertyType : PropertyType
  readonly : Bool
  externalId : Option String
  unit : NumberUnit
  value : Number
  minimum : Option Number
  maximum : Option Number
deriving DecidableEq, Repr

/-- `NumberProperty::set_positive_int` (number_property.rs lines 52-77), with
the after-call state of the property in the second component. The checks run
in source order: readonly, current-variant, minimum, maximum. -/
def NumberProperty.setPositiveInt (p : NumberProperty) (v : Nat) :
    Except PropertyError Unit × NumberProperty :=
  if p.readonly then (Except.error PropertyError.readOnly, p)
  else if !(match p.value with | Number.positiveInt _ => true | _ => false) then
    (Except.error PropertyError.incorrectValueType, p)
  else if (match p.minimum with | some (Number.positiveInt m) => decide (v < m) | _ => false) then
    (Except.error PropertyError.valueTooSmall, p)
  else if (match p.maximum with | some (Number.positiveInt m) => decide (v > m) | _ => false) then
    (Except.error PropertyError.valueTooLarge, p)
  else (Except.ok (), { p with value := Number.positiveInt v })

/-- `NumberProperty::set_negative_int` (number_property.rs lines 79-104). -/
def NumberProperty.setNegativeInt (p : NumberProperty) (v : Int) :
    Except PropertyError Unit × NumberProperty :=
  if p.readonly then (Except.error PropertyError.readOnly, p)
  else if !(match p.value with | Number.negativeInt _ => true | _ => false) then
    (Except.error PropertyError.incorrectValueType, p)
  else if (match p.minimum with | some (Number.negativeInt m) => decide (v < m) | _ => false) then
    (Except.error PropertyError.valueTooSmall, p)
  else if (match p.maximum with | some (Number.negativeInt m) => decide (v > m) | _ => false) then
    (Except.error PropertyError.valueTooLarge, p)
  else (Except.ok (), { p with value := Number.negativeInt v })

/-- `NumberProperty::set_float` (number_property.rs lines 106-131); the bound
checks use `f64` `<` / `>`, which are false on NaN. -/
def NumberProperty.setFloat (p : NumberProperty) (v : F64) :
    Except PropertyError Unit × NumberProperty :=
  if p.readonly then (Except.error PropertyError.readOnly, p)
  else if !(match p.value with | Number.float _ => true | _ => false) then
    (Except.error PropertyError.incorrectValueType, p)
  else if (match p.minimum with | some (Number.float m) => f64Lt v m | _ => false) then
    (Except.error PropertyError.valueTooSmall, p)
  else if (match p.maximum with | some (Number.float m) => f64Gt v m | _ => false) then
    (Except.error PropertyError.valueTooLarge, p)
  else (Except.ok (), { p with value := Number.float v })

/-- `NumberProperty::set_value` (number_property.rs lines 137-143): dispatch
on the variant of the incoming `Number`. -/
def NumberProperty.setValue (p : NumberProperty) (v : Number) :
    Except PropertyError Unit × NumberProperty :=
  match v with
  | Number.positiveInt n => p.setPositiveInt n
  | Number.negativeInt n => p.setNegativeInt n
  | Number.float x => p.setFloat x

/-- `CartesianCoordinate` from src/domain/property/color_property.rs, with
the two `f64` coordinates modelled as exact rationals. -/
structure CartesianCoordinate where
  x : ℚ
  y : ℚ
deriving DecidableEq, Repr

/-- `Gamut` from src/domain/property/color_property.rs. -/
structure Gamut where
  red : CartesianCoordinate
  green : CartesianCoordinate
  blue : CartesianCoordinate
deriving DecidableEq, Repr

/-- `ColorProperty` from src/domain/property/color_property.rs. -/
structure ColorProperty where
  name : String
  propertyType : PropertyType
  readonly : Bool
  externalId : Option String
  xy : CartesianCoordinate
  gamut : Option Gamut
deriving DecidableEq, Repr

/-- A `Box<dyn Property>`: the closed sum of the three property structs. A
`downcast_ref::<T>` / `downcast_mut::<T>` in the source becomes a match on
the corresponding constructor. -/
inductive PropertyD where
  | boolean (p : BooleanProperty)
  | number (p : NumberProperty)
  | color (p : ColorProperty)
deriving DecidableEq, Repr

/-- `Property::property_type` through the trait object. -/
def PropertyD.propertyType : PropertyD → PropertyType
  | PropertyD.boolean p => p.propertyType
  | PropertyD.number p => p.propertyType
  | PropertyD.color p => p.propertyType

/-! ### Devices (src/domain/device.rs) -/

/-- `DeviceType` from src/domain/device.rs. -/
inductive DeviceType where
  | light
deriving DecidableEq, Repr

/-- `Device` from src/domain/device.rs; `properties` is keyed by name. -/
structure Device where
  id : String
  type' : DeviceType
  manufacturer : String
  modelId : String
  productName : String
  name : String
  properties : List (String × PropertyD)
  externalId : Option String
  address : Option String
  controllerId : Option String
deriving DecidableEq, Repr

/-- The contents of the store's device map (`HashMap<String, Device>`). -/
abbrev DevMapContents : Type := List (String × Device)

/-! ### Evaluation context (src/flow_engine/context.rs)

The context carries the snapshot's device map plus the time data the
evaluator reads: `now.to_weekday()`, `now.time()` (seconds of day) and the
time-of-day of the computed sunrise/sunset. The chrono / solar computations
are external libraries and enter the model only through these fields. -/

/-- `Context`, restricted to what `evaluate` and the actions observe. -/
structure Context where
  devices : DevMapContents
  nowWeekday : Weekday
  nowTime : Nat
  sunriseTime : Nat
  sunsetTime : Nat

/-- `chrono::NaiveTime::from_hms_opt(h, m, 0)`, as seconds of day. -/
def naiveTimeFromHmsOpt (h m : Nat) : Option Nat :=
  if h ≤ 23 ∧ m ≤ 59 then some (h * 3600 + m * 60) else none

/-- `ExpressionError` from src/flow_engine/expression.rs. The source stores
`format!("{:?}", ..)` renderings of the offending sub-expressions; the model
carries the sub-expressions themselves, which is the same information. -/
inductive ExpressionError where
  | operandTypeMismatch (operand expected : String) (actualLhs actualRhs : Expression)
  | unaryOperandTypeMismatch (operand expected : String) (actual : Expression)
  | unknownDevice (deviceId : String)
  | unknownProperty (deviceId propertyId : String)
  | unsupportedPropertyType (t : PropertyType)
  | comparisonFailed (actualLhs actualRhs : Expression)
deriving DecidableEq, Repr

/-- `evaluate` (src/flow_engine/expression.rs lines 99-226), arm by arm.
The source factors the four comparison arms into the helper `compare`
(embedded below as `compare'`); here each arm carries that helper's body with
its `cmp` closure substituted, so that the whole evaluator is structurally
recursive. `evaluate_comparison_eq_compare'` records the correspondence.
In the `PropertyValue` arm the source `unwrap`s a downcast after matching on
the semantic property type; the downcast cannot fail for devices whose
property variants agree with their semantic types, and the model returns the
(unreachable) junk value `Value.none` on that panic path. The `Brightness`
arm reads the number property's value (the source maps an optional value to
`Value::None`; the `NumberProperty` in src/ stores a plain `Number`). -/
def evaluate (e : Expression) (context : Context) : Except ExpressionError Value :=
  match e with
  | Expression.greaterThanOrEqualTo lhs rhs =>
      match evaluate lhs context with
      | Except.error e => Except.error e
      | Except.ok va =>
        match evaluate rhs context with
        | Except.error e => Except.error e
        | Except.ok vb =>
          match va, vb with
          | Value.number a, Value.number b =>
            match a.pcmp b with
            | some o => Except.ok (Value.boolean (!(o == Ordering.lt)))
            | none => Except.error (ExpressionError.comparisonFailed lhs rhs)
          | _, _ => Except.error (ExpressionError.operandTypeMismatch "Compare" "Number" lhs rhs)
  | Expression.greaterThan lhs rhs =>
      match evaluate lhs context with
      | Except.error e => Except.error e
      | Except.ok va =>
        match evaluate rhs context with
        | Except.error e => Except.error e
        | Except.ok vb =>
          match va, vb with
          | Value.number a, Value.number b =>
            match a.pcmp b with
            | some o => Except.ok (Value.boolean (o == Ordering.gt))
            | none => Except.error (ExpressionError.comparisonFailed lhs rhs)
          | _, _ => Except.error (ExpressionError.operandTypeMismatch "Compare" "Number" lhs rhs)
  | Expression.lessThan lhs rhs =>
      match evaluate lhs context with
      | Except.error e => Except.error e
      | Except.ok va =>
        match evaluate rhs context with
        | Except.error e => Except.error e
        | Except.ok vb =>
          match va, vb with
          | Value.number a, Value.number b =>
            match a.pcmp b with
            | some o => Except.ok (Value.boolean (o == Ordering.lt))
            | none => Except.error (ExpressionError.comparisonFailed lhs rhs)
          | _, _ => Except.error (ExpressionError.operandTypeMismatch "Compare" "Number" lhs rhs)
  | Expression.lessThanOrEqualTo lhs rhs =>
      match evaluate lhs context with
      | Except.error e => Except.error e
      | Except.ok va =>
        match evaluate rhs context with
        | Except.error e => Except.error e
        | Except.ok vb =>
          match va, vb with
          | Value.number a, Value.number b =>
            match a.pcmp b with
            | some o => Except.ok (Value.boolean (!(o == Ordering.gt)))
            | none => Except.error (ExpressionError.comparisonFailed lhs rhs)
          | _, _ => Except.error (ExpressionError.operandTypeMismatch "Compare" "Number" lhs rhs)
  | Expression.equalTo lhs rhs =>
      match evaluate lhs context with
      | Except.error e => Except.error e
      | Except.ok va =>
        match evaluate rhs context with
        | Except.error e => Except.error e
        | Except.ok vb =>
          match va, vb with
          | Value.number a, Value.number b => Except.ok (Value.boolean (a.beq b))
          | Value.boolean a, Value.boolean b => Except.ok (Value.boolean (a == b))
          | Value.none, Value.none => Except.ok (Value.boolean true)
          | _, _ => Except.error (ExpressionError.operandTypeMismatch "EqualTo" "Boolean|Number" lhs rhs)
  | Expression.notEqualTo lhs rhs =>
      match evaluate lhs context with
      | Except.error e => Except.error e
      | Except.ok va =>
        match evaluate rhs context with
        | Except.error e => Except.error e
        | Except.ok vb =>
          match va, vb with
          | Value.number a, Value.number b => Except.ok (Value.boolean (!a.beq b))
          | Value.boolean a, Value.boolean b => Except.ok (Value.boolean (a != b))
          | Value.none, Value.none => Except.ok (Value.boolean false)
          | _, _ => Except.error (ExpressionError.operandTypeMismatch "NotEqualTo" "Boolean|Number" lhs rhs)
  | Expression.and lhs rhs =>
      match evaluate lhs context with
      | Except.error e => Except.error e
      | Except.ok va =>
        match evaluate rhs context with
        | Except.error e => Except.error e
        | Except.ok vb =>
          match va, vb with
          | Value.boolean a, Value.boolean b => Except.ok (Value.boolean (a && b))
          | _, _ => Except.error (ExpressionError.operandTypeMismatch "And" "Boolean" lhs rhs)
  | Expression.or lhs rhs =>
      match evaluate lhs context with
      | Except.error e => Except.error e
      | Except.ok va =>
        match evaluate rhs context with
        | Except.error e => Except.error e
        | Except.ok vb =>
          match va, vb with
          | Value.boolean a, Value.boolean b => Except.ok (Value.boolean (a || b))
          | _, _ => Except.error (ExpressionError.operandTypeMismatch "Or" "Boolean" lhs rhs)
  | Expression.not expr =>
      match evaluate expr context with
      | Except.error e => Except.error e
      | Except.ok v =>
        match v with
        | Value.boolean b => Except.ok (Value.boolean (!b))
        | _ => Except.error (ExpressionError.unaryOperandTypeMismatch "Not" "Boolean" expr)
  | Expression.literal v => Except.ok v
  | Expression.propertyValue deviceId propertyId =>
      match alFind context.devices deviceId with
      | none => Except.error (ExpressionError.unknownDevice deviceId)
      | some device =>
        match alFind device.properties propertyId with
        | none => Except.error (ExpressionError.unknownProperty deviceId propertyId)
        | some property =>
          match property.propertyType with
          | PropertyType.brightness =>
            match property with
            | PropertyD.number np => Except.ok (Value.number np.value)
            | _ => Except.ok Value.none
          | PropertyType.color => Except.error (ExpressionError.unsupportedPropertyType PropertyType.color)
          | PropertyType.colorTemperature => Except.error (ExpressionError.unsupportedPropertyType PropertyType.colorTemperature)
          | PropertyType.on =>
            match property with
            | PropertyD.boolean bp => Except.ok (Value.boolean bp.value)
            | _ => Except.ok Value.none
  | Expression.temporal te =>
      match te with
      | TemporalExpression.isToday w =>
          Except.ok (Value.boolean (w.includedDays.contains context.nowWeekday))
      | TemporalExpression.isBeforeTime t =>
          Except.ok (Value.boolean (match naiveTimeFromHmsOpt t.hour t.minute with
            | some target => decide (context.nowTime < target)
            | none => false))
      | TemporalExpression.isAfterTime t =>
          Except.ok (Value.boolean (match naiveTimeFromHmsOpt t.hour t.minute with
            | some target => decide (context.nowTime > target)
            | none => false))
      | TemporalExpression.hasSunRisen =>
          Except.ok (Value.boolean (decide (context.nowTime ≥ context.sunriseTime)))
      | TemporalExpression.hasSunSet =>
          Except.ok (Value.boolean (decide (context.nowTime ≥ context.sunsetTime)))
      | TemporalExpression.isDaytime =>
          Except.ok (Value.boolean (decide (context.nowTime ≥ context.sunriseTime) && decide (context.nowTime < context.sunsetTime)))
      | TemporalExpression.isNighttime =>
          Except.ok (Value.boolean (decide (context.nowTime < context.sunriseTime) || decide (context.nowTime ≥ context.sunsetTime)))

/-- `compare` (src/flow_engine/expression.rs lines 228-241): evaluate both
operands (the `?` on the left operand short-circuits on its error), require
both to be `Number`, and map `partial_cmp` through `cmp`; `None` from
`partial_cmp` becomes `ComparisonFailed`. -/
def compare' (lhs rhs : Expression) (cmp : Ordering → Bool) (context : Context) :
    Except ExpressionError Value :=
  match evaluate lhs context with
  | Except.error e => Except.error e
  | Except.ok va =>
    match evaluate rhs context with
    | Except.error e => Except.error e
    | Except.ok vb =>
      match va, vb with
      | Value.number a, Value.number b =>
        match a.pcmp b with
        | some o => Except.ok (Value.boolean (cmp o))
        | none => Except.error (ExpressionError.comparisonFailed lhs rhs)
      | _, _ => Except.error (ExpressionError.operandTypeMismatch "Compare" "Number" lhs rhs)

/-! ### Store and reducer (src/store.rs) -/

/-- `Color` from src/domain/color.rs (payload of `PropertyValue::SetColor`). -/
inductive Color where
  | rgb (r g b : Nat)
  | hex (s : String)
  | cieXyY (xy : CartesianCoordinate) (brightness : F64)
deriving DecidableEq, Repr

/-- `Event` from src/domain/events.rs. -/
inductive Event where
  | discoveredDevices (devices : List Device)
  | booleanPropertyChanged (deviceId propertyId : String) (value : Bool)
  | numberPropertyChanged (deviceId propertyId : String) (value : Number)
  | colorPropertyChanged (deviceId propertyId : String) (xy : CartesianCoordinate) (gamut : Option Gamut)

/-- `Store::reduce_property_changed_event` (src/store.rs lines 78-119).
`set_value` models the generic closure applied after the
`downcast_mut::<T>`: it returns `none` when the downcast fails, and
otherwise the setter's `Result` together with the property after the call.
Unknown device, unknown property, failed downcast and a setter error all
leave the map unchanged (the source logs and returns). -/
def reducePropertyChangedEvent (devices : DevMapContents) (deviceId propertyId : String)
    (setValue : PropertyD → Option (Except PropertyError PropertyD)) : DevMapContents :=
  match alFind devices deviceId with
  | none => devices
  | some device =>
    match alFind device.properties propertyId with
    | none => devices
    | some property =>
      match setValue property with
      | none => devices
      | some (Except.error _) => devices
      | some (Except.ok p') =>
          alInsert devices deviceId { device with properties := alInsert device.properties propertyId p' }

/-- The closure passed for `Event::BooleanPropertyChanged`
(src/store.rs lines 59-61): downcast to `BooleanProperty`, then
`property.set_value(value).map(|_| ())`. -/
def applyBooleanSetter (value : Bool) : PropertyD → Option (Except PropertyError PropertyD)
  | PropertyD.boolean bp =>
      some (match bp.setValue value with
        | (Except.ok _, bp') => Except.ok (PropertyD.boolean bp')
        | (Except.error e, _) => Except.error e)
  | _ => none

/-- The closure passed for `Event::NumberPropertyChanged`
(src/store.rs lines 69-71): downcast to `NumberProperty`, then
`property.set_value(value).map(|_| ())`. -/
def applyNumberSetter (value : Number) : PropertyD → Option (Except PropertyError PropertyD)
  | PropertyD.number np =>
      some (match np.setValue value with
        | (Except.ok _, np') => Except.ok (PropertyD.number np')
        | (Except.error e, _) => Except.error e)
  | _ => none

/-- One iteration of `Store::listen` (src/store.rs lines 40-76) on the device
map contents. `DiscoveredDevices` extends the map keyed by device id
(last-writer-wins); the property-changed events go through
`reduce_property_changed_event`. The `listen` match in src/store.rs has no
arm for `ColorPropertyChanged`; that event leaves the map unchanged here. -/
def Store.applyEvent (devices : DevMapContents) (e : Event) : DevMapContents :=
  match e with
  | Event.discoveredDevices ds => ds.foldl (fun acc d => alInsert acc d.id d) devices
  | Event.booleanPropertyChanged did pid v => reducePropertyChangedEvent devices did pid (applyBooleanSetter v)
  | Event.numberPropertyChanged did pid v => reducePropertyChangedEvent devices did pid (applyNumberSetter v)
  | Event.colorPropertyChanged _ _ _ _ => devices

/-- The store's shared-ownership state. `DeviceMap` in src/store.rs line 12
is `Arc<RwLock<HashMap<String, Device>>>`: a pointer to a shared mutable
cell. The model makes the pointer explicit: `heap` maps cell addresses to
map contents and `root` is the address held in `Store::devices`. -/
structure StoreState where
  heap : Nat → DevMapContents
  root : Nat

/-- A snapshot obtained from the store's notifier. Both the initial watch
value and every `notifier_tx.send(self.devices.clone())` transmit a clone of
the `Arc` itself (src/store.rs lines 25 and 52), i.e. the same address. -/
def Store.notifierSnapshot (s : StoreState) : Nat := s.root

/-- Reading the device map through a held snapshot (dereferencing the `Arc`
and read-locking the `RwLock`). -/
def Store.readSnapshot (s : StoreState) (snapshot : Nat) : DevMapContents := s.heap snapshot

/-- One `Store::listen` iteration on the shared state: the reducer writes
through `self.devices` (`self.devices.write().await`), i.e. it mutates the
cell at `root` in place. -/
def Store.listenStep (s : StoreState) (e : Event) : StoreState :=
  { s with heap := fun a => if a = s.root then Store.applyEvent (s.heap s.root) e else s.heap a }

/-! ### Scope, actions and the command map (src/flow_engine/scope.rs,
src/flow_engine/action.rs, src/flow_engine/property_value.rs) -/

/-- `PropertyValue` from src/flow_engine/property_value.rs. -/
inductive PropertyValue where
  | setBooleanValue (b : Bool)
  | toggleBooleanValue
  | setNumberValue (n : Number)
  | incrementNumberValue (n : Number)
  | decrementNumberValue (n : Number)
  | setColor (c : Color)
deriving DecidableEq, Repr

/-- `CommandMap`: `HashMap<String, HashMap<String, PropertyValue>>`. -/
abbrev CommandMap : Type := List (String × List (String × PropertyValue))

/-- The values a `Scope` (`HashMap<String, Box<dyn Any>>`) holds. The only
value type the sources ever store in a scope is a `CommandMap` under the key
`"command_map"` (src/flow_engine/action.rs line 106), so the type-erased box
is modelled by this closed sum; a `downcast` is a match on the constructor. -/
inductive ScopeValue where
  | commandMap (m : CommandMap)
deriving DecidableEq

/-- `Scope` from src/flow_engine/scope.rs. -/
abbrev Scope : Type := List (String × ScopeValue)

/-- A `Box<dyn Action>`: the closed sum of the two actions registered in
src/flow_engine/action.rs. -/
inductive ActionD where
  | logAction (message : String)
  | controlDeviceAction (deviceId : String) (property : List (String × PropertyValue))

/-- `Action::execute` for the two built-in actions (src/flow_engine/action.rs).
`LogAction` only logs. `ControlDeviceAction` skips unknown devices, ensures
the `"command_map"` scope entry (`ensure_entry_mut`), and inserts every
action property into the per-device map, later writes overwriting (the
source logs the overridden value). -/
def executeAction (a : ActionD) (context : Context) (scope : Scope) : Scope :=
  match a with
  | ActionD.logAction _ => scope
  | ActionD.controlDeviceAction deviceId props =>
    match alFind context.devices deviceId with
    | none => scope
    | some _ =>
      let scope1 := match alFind scope "command_map" with
        | none => alInsert scope "command_map" (ScopeValue.commandMap [])
        | some _ => scope
      match alFind scope1 "command_map" with
      | some (ScopeValue.commandMap cm) =>
          let current := match alFind cm deviceId with
            | some m => m
            | none => []
          alInsert scope1 "command_map" (ScopeValue.commandMap (alInsert cm deviceId (alExtend current props)))
      | none => scope1

/-! ### Flow graphs and the engine (src/flow_engine/flow.rs,
src/flow_engine/engine.rs) -/

/-- `Duration`, modelled as an opaque tick count. -/
abbrev Duration : Type := Nat

/-- `FlowNodeKind` from src/flow_engine/flow.rs lines 107-114. `Action`
wraps the boxed action (`ActionFlowNode` is a plain wrapper). -/
inductive FlowNodeKind where
  | start
  | end'
  | conditional (e : Expression)
  | action (a : ActionD)
  | sleep (duration : Duration)

mutual

/-- `FlowNode` from src/flow_engine/flow.rs: id, ordered outgoing links,
kind. `Arc` sharing is modelled by value (execution never mutates nodes). -/
inductive FlowNode where
  | mk (id : String) (outgoingNodes : List FlowLink) (kind : FlowNodeKind)

/-- `FlowLink` from src/flow_engine/flow.rs: target node and selection value. -/
inductive FlowLink where
  | mk (node : FlowNode) (value : Value)

end

/-- `FlowNode::id`. -/
def FlowNode.id : FlowNode → String
  | FlowNode.mk i _ _ => i

/-- `FlowNode::outgoing_nodes`. -/
def FlowNode.outgoingNodes : FlowNode → List FlowLink
  | FlowNode.mk _ o _ => o

/-- `FlowNode::kind`. -/
def FlowNode.kind : FlowNode → FlowNodeKind
  | FlowNode.mk _ _ k => k

/-- `FlowLink::node`. -/
def FlowLink.node : FlowLink → FlowNode
  | FlowLink.mk n _ => n

/-- `FlowLink::value`. -/
def FlowLink.value : FlowLink → Value
  | FlowLink.mk _ v => v

/-- `SchedulerCommand` from src/flow_engine/scheduler.rs lines 14-18. -/
inductive SchedulerCommand where
  | schedule (flowId : String)
  | scheduleOnce (flowId nodeId : String) (delay : Duration)
deriving DecidableEq

/-- `FlowEngineError` from src/flow_engine/engine.rs lines 104-114. -/
inductive FlowEngineError where
  | missingOutgoingNode (nodeId : String)
  | failedTriggerEvaluation (e : ExpressionError)
  | failedScheduleSleepCommand
  | missingProvidedStartNode (nodeId : String)
deriving DecidableEq

/-- `Flow` from src/flow_engine/flow.rs (primed: Mathlib already has a
`Flow`). Only the presence of `schedule`
matters to the components modelled here, so it is kept as the cron string. -/
structure Flow' where
  id : String
  name : String
  schedule : Option String
  trigger : Expression
  startNode : FlowNode
  nodesById : List (String × FlowNode)

/-- The node-walking loop of `execute` fused with `execute_node`
(src/flow_engine/engine.rs lines 45-60 and 68-96), arm by arm:
* an `Action` node runs its action on the scope; every kind then takes the
  *first* outgoing link (`node.outgoing_nodes().first()`) — the match in
  `execute_node` has only the `Action` arm and a catch-all, so `Conditional`
  nodes neither evaluate their expression nor inspect link values;
* no outgoing link → `MissingOutgoingNode(node.id)`;
* a `Sleep` node sends `ScheduleOnce{flow_id, node_id = next.id, delay}` and
  the loop terminates;
* a next node of kind `End` terminates the loop; otherwise the loop
  continues at the next node.
The emitted scheduler commands are collected in the returned list. -/
def walk (flowId : String) (node : FlowNode) (context : Context) (scope : Scope) :
    Except FlowEngineError (Scope × List SchedulerCommand) :=
  match node with
  | FlowNode.mk id outgoing kind =>
    let scope' := match kind with
      | FlowNodeKind.action a => executeAction a context scope
      | _ => scope
    match outgoing with
    | [] => Except.error (FlowEngineError.missingOutgoingNode id)
    | FlowLink.mk next _ :: _ =>
      match kind with
      | FlowNodeKind.sleep d =>
          Except.ok (scope', [SchedulerCommand.scheduleOnce flowId next.id d])
      | _ =>
        match next.kind with
        | FlowNodeKind.end' => Except.ok (scope', [])
        | _ => walk flowId next context scope'

/-- `FlowExecutionReport` from src/flow_engine/engine.rs lines 116-119. -/
structure FlowExecutionReport where
  scope : Scope
  duration : Duration
deriving DecidableEq

/-- `FlowExecutionReport::empty` (engine.rs lines 127-132). -/
def FlowExecutionReport.empty : FlowExecutionReport :=
  { scope := [], duration := (0 : Nat) }

/-- `execute` (src/flow_engine/engine.rs lines 17-66):
1. evaluate the trigger: `Ok(Boolean(true))` continues, any other `Ok`
   returns `FlowExecutionReport::empty()`, an `Err` becomes
   `FailedTriggerEvaluation`;
2. resolve the start node: a provided `node_id` must name a node
   (`MissingProvidedStartNode` otherwise) and is dropped if it names an
   `End` node; without a `node_id` the flow's start node is used;
3. walk the nodes.
`elapsed` stands for the wall-clock duration `Instant::now() - start`
measured on the executed path; the trigger-false path returns
`Duration::ZERO` via `FlowExecutionReport::empty()`. -/
def execute (flow : Flow') (nodeId : Option String) (context : Context) (elapsed : Duration) :
    Except FlowEngineError (FlowExecutionReport × List SchedulerCommand) :=
  match evaluate flow.trigger context with
  | Except.ok (Value.boolean true) =>
    match (match nodeId with
      | some nid =>
        match alFind flow.nodesById nid with
        | none => Except.error (FlowEngineError.missingProvidedStartNode nid)
        | some n => Except.ok (match n.kind with
            | FlowNodeKind.end' => (none : Option FlowNode)
            | _ => some n)
      | none => Except.ok (some flow.startNode)) with
    | Except.error e => Except.error e
    | Except.ok none => Except.ok ({ scope := [], duration := elapsed }, [])
    | Except.ok (some n) =>
      match walk flow.id n context [] with
      | Except.error e => Except.error e
      | Except.ok (s, cmds) => Except.ok ({ scope := s, duration := elapsed }, cmds)
  | Except.ok _ => Except.ok (FlowExecutionReport.empty, [])
  | Except.error e => Except.error (FlowEngineError.failedTriggerEvaluation e)

/-! ### Merging command maps (src/execute_flows.rs) -/

/-- `FlowExecutionReport::take_from_scope::<CommandMap>("command_map")`
(engine.rs lines 138-140): remove the entry and downcast it. -/
def takeFromScope (s : Scope) : Option CommandMap :=
  match alFind s "command_map" with
  | some (ScopeValue.commandMap m) => some m
  | none => none

/-- The inner loop of `merge_command_maps` (src/execute_flows.rs lines
43-46): for each device entry of one report's command map, get-or-insert the
per-device map in the accumulator (`entry.or_insert_with(HashMap::new)`) and
`extend` it with the report's properties. -/
def mergeDeviceEntries (merged : CommandMap) (cm : CommandMap) : CommandMap :=
  cm.foldl
    (fun acc entry =>
      alInsert acc entry.1
        (alExtend (match alFind acc entry.1 with
          | some m => m
          | none => []) entry.2))
    merged

/-- `merge_command_maps` (src/execute_flows.rs lines 38-51): iterate the
reports in order, skip errored results (`filter_map(Result::ok)`) and
reports without a command map, and merge each remaining command map's
device entries. -/
def mergeCommandMaps (reports : List (Except FlowEngineError FlowExecutionReport)) : CommandMap :=
  reports.foldl
    (fun merged r =>
      match r with
      | Except.error _ => merged
      | Except.ok report =>
        match takeFromScope report.scope with
        | none => merged
        | some cm => mergeDeviceEntries merged cm)
    []

/-! ### Auxiliary definitions used by the theorems -/

deriving instance DecidableEq for Except

/-- Looking a property write up in a command map: the per-device map, then
the per-property entry. -/
def commandMapLookup (cm : CommandMap) (deviceId propertyName : String) : Option PropertyValue :=
  match alFind cm deviceId with
  | none => none
  | some m => alFind m propertyName

/-- The write a single flow result contributes for one
(device id, property name) pair, if any (spec-side helper for claim C7). -/
def reportWrite (r : Except FlowEngineError FlowExecutionReport)
    (deviceId propertyName : String) : Option PropertyValue :=
  match r with
  | Except.error _ => none
  | Except.ok report =>
    match takeFromScope report.scope with
    | none => none
    | some cm => commandMapLookup cm deviceId propertyName

/-- Written from the spec's words for claim C7, to be compared with
`mergeCommandMaps`: iterate the results in list order and keep, for the
given (device id, property name) pair, the write of the *latest* result that
contains one; errored results contain none. -/
def lastWriteSpec (reports : List (Except FlowEngineError FlowExecutionReport))
    (deviceId propertyName : String) : Option PropertyValue :=
  reports.foldl
    (fun acc r =>
      match reportWrite r deviceId propertyName with
      | some v => some v
      | none => acc)
    none

/-- `HashMap` key uniqueness of one flow result's command map: the device
keys are distinct and so are the property keys of each per-device map
(automatic for actual `HashMap`s; the association-list model states it). -/
def reportMapsNodup (r : Except FlowEngineError FlowExecutionReport) : Prop :=
  match r with
  | Except.error _ => True
  | Except.ok rep =>
    match takeFromScope rep.scope with
    | none => True
    | some cm =>
      (cm.map Prod.fst).Nodup ∧ ∀ props ∈ cm.map Prod.snd, (props.map Prod.fst).Nodup

instance (r : Except FlowEngineError FlowExecutionReport) : Decidable (reportMapsNodup r) :=
  match r with
  | Except.error _ => isTrue trivial
  | Except.ok rep =>
    match htr : takeFromScope rep.scope with
    | none => isTrue (by simp [reportMapsNodup, htr])
    | some cm =>
      decidable_of_iff
        ((cm.map Prod.fst).Nodup ∧ ∀ props ∈ cm.map Prod.snd, (props.map Prod.fst).Nodup)
        (by simp [reportMapsNodup, htr])

/-- Whether two `Number`s are built from the same variant. -/
def sameNumberVariant : Number → Number → Bool
  | Number.positiveInt _, Number.positiveInt _ => true
  | Number.negativeInt _, Number.negativeInt _ => true
  | Number.float _, Number.float _ => true
  | _, _ => false

/-! ### Concrete fixtures (used by the closed theorems and witnesses) -/

/-- A writable float `NumberProperty` with bounds, shaped like the repo's
own test fixtures: value 42.0, minimum 1.0, maximum 101.0. -/
def brightnessProperty : NumberProperty :=
  { name := "brightness", propertyType := PropertyType.brightness, readonly := false,
    externalId := none, unit := NumberUnit.percentage,
    value := Number.float (F64.val 42), minimum := some (Number.float (F64.val 1)),
    maximum := some (Number.float (F64.val 101)) }

/-- A writable boolean `on` property, initially false. -/
def onProperty : BooleanProperty :=
  { name := "on", propertyType := PropertyType.on, readonly := false,
    externalId := none, value := false }

/-- A lamp with the two properties above. -/
def lampDevice : Device :=
  { id := "d1", type' := DeviceType.light, manufacturer := "Signify", modelId := "LCT007",
    productName := "Hue color lamp", name := "Lamp",
    properties := [("brightness", PropertyD.number brightnessProperty), ("on", PropertyD.boolean onProperty)],
    externalId := none, address := none, controllerId := some "hue" }

/-- A device map holding the lamp. -/
def lampMap : DevMapContents := [("d1", lampDevice)]

/-- A store whose single cell (address 0) holds `lampMap`. -/
def lampStore : StoreState := { heap := fun _ => lampMap, root := 0 }

/-- A context over `lampMap`; the temporal fields are arbitrary. -/
def lampContext : Context :=
  { devices := lampMap, nowWeekday := Weekday.friday, nowTime := 43200,
    sunriseTime := 22174, sunsetTime := 77202 }

/-- An empty-map context. -/
def emptyContext : Context :=
  { devices := [], nowWeekday := Weekday.friday, nowTime := 43200,
    sunriseTime := 22174, sunsetTime := 77202 }

/-- The conditional flow of spec scenario 2 (the repo's conditionalFlow.json
fixture), with a `ControlDeviceAction` inserted behind the `Boolean(true)`
link so the branch taken is observable in the report's scope:
`Start → Conditional(Literal(Number(42.0)))` with outgoing links
`{Boolean(true) → action → End, Boolean(false) → End}`. -/
def conditionalEndTrue : FlowNode := FlowNode.mk "endNodeTrue" [] FlowNodeKind.end'

/-- The `Boolean(false)` branch's end node. -/
def conditionalEndFalse : FlowNode := FlowNode.mk "endNodeFalse" [] FlowNodeKind.end'

/-- The observable action on the `Boolean(true)` branch. -/
def conditionalActionNode : FlowNode :=
  FlowNode.mk "actionNode" [FlowLink.mk conditionalEndTrue Value.none]
    (FlowNodeKind.action (ActionD.controlDeviceAction "d1" [("on", PropertyValue.setBooleanValue true)]))

/-- The conditional node: expression `Literal(Number(42.0))`, links valued
`Boolean(true)` and `Boolean(false)`. -/
def conditionalNode : FlowNode :=
  FlowNode.mk "conditionalNode"
    [FlowLink.mk conditionalActionNode (Value.boolean true),
     FlowLink.mk conditionalEndFalse (Value.boolean false)]
    (FlowNodeKind.conditional (Expression.literal (Value.number (Number.float (F64.val 42)))))

/-- The start node of the conditional flow. -/
def conditionalStartNode : FlowNode :=
  FlowNode.mk "startNode" [FlowLink.mk conditionalNode Value.none] FlowNodeKind.start

/-- The conditional flow (trigger defaults to `Literal(Boolean(true))`). -/
def conditionalFlow : Flow' :=
  { id := "01K8JSTTCC831M6TERRH41D595", name := "conditionalFlow", schedule := none,
    trigger := Expression.literal (Value.boolean true),
    startNode := conditionalStartNode,
    nodesById := [("startNode", conditionalStartNode), ("conditionalNode", conditionalNode),
                  ("actionNode", conditionalActionNode), ("endNodeTrue", conditionalEndTrue),
                  ("endNodeFalse", conditionalEndFalse)] }

/-- The sleep flow of spec scenario 3: `Start → Sleep(42s) → End`. -/
def sleepEndNode : FlowNode := FlowNode.mk "end_node" [] FlowNodeKind.end'

/-- The sleep node, 42 ticks, linking to the end node. -/
def sleepNode : FlowNode :=
  FlowNode.mk "sleep_node" [FlowLink.mk sleepEndNode Value.none] (FlowNodeKind.sleep 42)

/-- The start node of the sleep flow. -/
def sleepStartNode : FlowNode :=
  FlowNode.mk "startNode" [FlowLink.mk sleepNode Value.none] FlowNodeKind.start

/-- The sleep flow with its node index. -/
def sleepFlow : Flow' :=
  { id := "id", name := "flow", schedule := none,
    trigger := Expression.literal (Value.boolean true),
    startNode := sleepStartNode,
    nodesById := [("startNode", sleepStartNode), ("sleep_node", sleepNode), ("end_node", sleepEndNode)] }

/-- A readonly positive-int property (like the repo's colorTemperature). -/
def colorTemperatureProperty : NumberProperty :=
  { name := "colorTemperature", propertyType := PropertyType.colorTemperature, readonly := true,
    externalId := none, unit := NumberUnit.kelvin,
    value := Number.positiveInt 6535, minimum := some (Number.positiveInt 2000),
    maximum := some (Number.positiveInt 6535) }

/-- A report whose command map sets `on` of device `D` to true. -/
def reportSetTrue : FlowExecutionReport :=
  { scope := [("command_map", ScopeValue.commandMap [("D", [("on", PropertyValue.setBooleanValue true)])])],
    duration := 1 }

/-- A report whose command map sets `on` of device `D` to false and
`brightness` of device `E` to 7. -/
def reportSetFalse : FlowExecutionReport :=
  { scope := [("command_map", ScopeValue.commandMap
      [("D", [("on", PropertyValue.setBooleanValue false)]),
       ("E", [("brightness", PropertyValue.setNumberValue (Number.positiveInt 7))])]) ],
    duration := 1 }

/-- The sleep flow with trigger `Literal(Boolean(false))`. -/
def falseTriggerFlow : Flow' :=
  { sleepFlow with trigger := Expression.literal (Value.boolean false) }

/-- The sleep flow with a trigger whose evaluation errors
(`Not(Literal(Number(1)))`). -/
def badTriggerFlow : Flow' :=
  { sleepFlow with trigger := Expression.not (Expression.literal (Value.number (Number.positiveInt 1))) }

/-! ## Theorems

General helper lemmas first, then one theorem per claim (with its
counterexample / witness where required). -/

theorem alFind_alInsert {β : Type} (m : List (String × β)) (k k2 : String) (v : β) :
    alFind (alInsert m k v) k2 = if k = k2 then some v else alFind m k2 := by
  induction m with
  | nil => by_cases h : k = k2 <;> simp [alInsert, alFind, h]
  | cons hd tl ih =>
    obtain ⟨k0, w⟩ := hd
    by_cases h0 : k0 = k
    · subst h0
      by_cases h2 : k0 = k2 <;> simp [alInsert, alFind, h2]
    · by_cases h2 : k0 = k2
      · subst h2
        have e1 : alInsert ((k0, w) :: tl) k v = (k0, w) :: alInsert tl k v := by
          simp [alInsert, h0]
        have e2 : alFind ((k0, w) :: alInsert tl k v) k0 = some w := by
          simp [alFind]
        have e3 : alFind ((k0, w) :: tl) k0 = some w := by
          simp [alFind]
        rw [e1, e2, e3, if_neg (fun h => h0 h.symm)]
      · simp [alInsert, alFind, h0, h2, ih]

theorem alFind_eq_none_of_not_mem {β : Type} (l : List (String × β)) (k : String)
    (h : k ∉ l.map Prod.fst) : alFind l k = none := by
  induction l with
  | nil => rfl
  | cons hd tl ih =>
    obtain ⟨k0, w⟩ := hd
    simp only [List.map, List.mem_cons] at h
    push_neg at h
    have hne : ¬k0 = k := fun hk => h.1 hk.symm
    simp [alFind, hne, ih h.2]

theorem alFind_alExtend {β : Type} (src m : List (String × β)) (k : String) :
    alFind (alExtend m src) k =
      match alFindLast src k with
      | some v => some v
      | none => alFind m k := by
  induction src generalizing m with
  | nil => simp [alExtend, alFindLast]
  | cons hd tl ih =>
    obtain ⟨k0, w⟩ := hd
    show alFind (alExtend (alInsert m k0 w) tl) k = _
    rw [ih]
    cases htl : alFindLast tl k with
    | some v => simp [alFindLast, htl]
    | none =>
      rw [alFind_alInsert]
      by_cases h0 : k0 = k <;> simp [alFindLast, htl, h0]

theorem alFindLast_eq_alFind {β : Type} (l : List (String × β)) (k : String)
    (h : (l.map Prod.fst).Nodup) : alFindLast l k = alFind l k := by
  induction l with
  | nil => rfl
  | cons hd tl ih =>
    obtain ⟨k0, w⟩ := hd
    simp only [List.map, List.nodup_cons] at h
    by_cases h0 : k0 = k
    · subst h0
      have : alFindLast tl k0 = none := by
        rw [ih h.2]
        exact alFind_eq_none_of_not_mem tl k0 h.1
      simp [alFindLast, alFind, this]
    · simp only [alFindLast, alFind, if_neg h0, ih h.2]
      cases alFind tl k <;> rfl

/-- C1: the flow engine's `execute_node` has no `Conditional` arm — a
conditional node falls into the catch-all and transitions along its *first*
outgoing link without evaluating its expression or inspecting link values.
On spec scenario 2 (expression `Literal(Number(42.0))`, links valued
`Boolean(true)` and `Boolean(false)`, with an observable action behind the
first link) execution succeeds through the `Boolean(true)` branch even
though the expression evaluates to `Number(42.0)` and no link value equals
that result; the claimed `MissingOutgoingNode("conditionalNode")` failure
does not occur. -/
theorem conditional_node_takes_first_link_without_matching :
    execute conditionalFlow none lampContext 0 =
      Except.ok ({ scope := [("command_map", ScopeValue.commandMap
                    [("d1", [("on", PropertyValue.setBooleanValue true)])])],
                   duration := 0 }, []) ∧
    evaluate (Expression.literal (Value.number (Number.float (F64.val 42)))) lampContext =
      Except.ok (Value.number (Number.float (F64.val 42))) ∧
    (conditionalNode.outgoingNodes.all
      (fun link => !(link.value == Value.number (Number.float (F64.val 42))))) = true ∧
    execute conditionalFlow none lampContext 0 ≠
      Except.error (FlowEngineError.missingOutgoingNode "conditionalNode") := by
  refine ⟨rfl, rfl, rfl, ?_⟩
  decide

/-- C4: `Number`'s `partial_cmp` compares `PositiveInt` against
`NegativeInt` by value, but `PartialEq`'s final `_ => false` arm covers the
two mixed integer pairings, so `PositiveInt(5)` and `NegativeInt(5)` compare
`Equal` while `==` returns `false` — antisymmetry (`partial_cmp` `Equal`
implies `eq`) fails on non-NaN inputs. -/
theorem number_cmp_equal_but_eq_false :
    Number.pcmp (Number.positiveInt 5) (Number.negativeInt 5) = some Ordering.eq ∧
    Number.beq (Number.positiveInt 5) (Number.negativeInt 5) = false := by
  decide

/-- C3 counterexample: the notifier hands out the address of the store's own
`Arc<RwLock<..>>` cell; after the reducer applies a
`BooleanPropertyChanged` event, the device map read through the previously
held snapshot has changed. -/
theorem held_snapshot_observes_reducer_mutation :
    Store.readSnapshot
        (Store.listenStep lampStore (Event.booleanPropertyChanged "d1" "on" true))
        (Store.notifierSnapshot lampStore) ≠
      Store.readSnapshot lampStore (Store.notifierSnapshot lampStore) := by
  decide

/-- C3 (amended): snapshots obtained from the store's notifier alias the
live device map: a reducer step republishes the same handle
(`notifier_tx.send(self.devices.clone())` clones the `Arc`, not the map) and
mutates the shared map in place, so the map observable through a previously
held snapshot always equals the reducer's current map — after each event it
shows that event applied. -/
theorem snapshot_aliases_live_device_map :
    ∀ (s : StoreState) (e : Event),
      Store.notifierSnapshot (Store.listenStep s e) = Store.notifierSnapshot s ∧
      Store.readSnapshot (Store.listenStep s e) (Store.notifierSnapshot s) =
        Store.applyEvent (Store.readSnapshot s (Store.notifierSnapshot s)) e := by
  intro s e
  exact ⟨rfl, by simp [Store.listenStep, Store.readSnapshot, Store.notifierSnapshot]⟩

theorem setPositiveInt_error_frame (p : NumberProperty) (v : Nat) (e : PropertyError)
    (h : (p.setPositiveInt v).1 = Except.error e) : (p.setPositiveInt v).2 = p := by
  unfold NumberProperty.setPositiveInt at h ⊢
  split_ifs at h ⊢ <;> simp_all

theorem setNegativeInt_error_frame (p : NumberProperty) (v : Int) (e : PropertyError)
    (h : (p.setNegativeInt v).1 = Except.error e) : (p.setNegativeInt v).2 = p := by
  unfold NumberProperty.setNegativeInt at h ⊢
  split_ifs at h ⊢ <;> simp_all

theorem setFloat_error_frame (p : NumberProperty) (v : F64) (e : PropertyError)
    (h : (p.setFloat v).1 = Except.error e) : (p.setFloat v).2 = p := by
  unfold NumberProperty.setFloat at h ⊢
  split_ifs at h ⊢ <;> simp_all

theorem setValue_error_frame (p : NumberProperty) (v : Number) (e : PropertyError)
    (h : (p.setValue v).1 = Except.error e) : (p.setValue v).2 = p := by
  cases v with
  | positiveInt n => exact setPositiveInt_error_frame p n e h
  | negativeInt n => exact setNegativeInt_error_frame p n e h
  | float x => exact setFloat_error_frame p x e h

/-- C10 counterexample: the setters check `readonly` before the value
variant, so a variant-mismatched write to a *readonly* `NumberProperty`
fails with `ReadOnly`, not with the claimed `IncorrectValueType` (here: a
`set_negative_int` on a readonly property holding a `PositiveInt`). -/
theorem readonly_mismatched_write_fails_with_readonly :
    (colorTemperatureProperty.setNegativeInt (-7)).1 = Except.error PropertyError.readOnly ∧
    (Except.error PropertyError.readOnly : Except PropertyError Unit) ≠
      Except.error PropertyError.incorrectValueType := by
  decide

/-- C10 (amended): every property setter is atomic on error — whenever
`BooleanProperty::set_value` or any of the `NumberProperty` setters returns
an error, the property is left unchanged; and a `NumberProperty` write whose
numeric variant differs from the current value's variant always fails
without altering the stored value, with `ReadOnly` when the property is
readonly and with `IncorrectValueType` otherwise. -/
theorem property_setters_atomic_on_error :
    (∀ (p : BooleanProperty) (v : Bool) (e : PropertyError),
        (p.setValue v).1 = Except.error e → (p.setValue v).2 = p) ∧
    (∀ (p : NumberProperty) (v : Nat) (e : PropertyError),
        (p.setPositiveInt v).1 = Except.error e → (p.setPositiveInt v).2 = p) ∧
    (∀ (p : NumberProperty) (v : Int) (e : PropertyError),
        (p.setNegativeInt v).1 = Except.error e → (p.setNegativeInt v).2 = p) ∧
    (∀ (p : NumberProperty) (v : F64) (e : PropertyError),
        (p.setFloat v).1 = Except.error e → (p.setFloat v).2 = p) ∧
    (∀ (p : NumberProperty) (v : Number) (e : PropertyError),
        (p.setValue v).1 = Except.error e → (p.setValue v).2 = p) ∧
    (∀ (p : NumberProperty) (v : Number),
        sameNumberVariant p.value v = false →
        (p.setValue v).1 = Except.error
          (if p.readonly then PropertyError.readOnly else PropertyError.incorrectValueType) ∧
        (p.setValue v).2 = p) := by
  refine ⟨?_, setPositiveInt_error_frame, setNegativeInt_error_frame, setFloat_error_frame,
    setValue_error_frame, ?_⟩
  · intro p v e h
    unfold BooleanProperty.setValue at h ⊢
    split_ifs at h ⊢ <;> simp_all
  · intro p v hvar
    cases hv : p.value <;> cases v <;>
      simp_all [sameNumberVariant, NumberProperty.setValue, NumberProperty.setPositiveInt,
        NumberProperty.setNegativeInt, NumberProperty.setFloat, hv] <;>
      split_ifs <;> simp_all

/-- C10 witness: the amended theorem applied to concrete setters — a
too-small `set_positive_int` on a writable property leaves it unchanged, and
a float write to a `PositiveInt`-valued writable property fails with
`IncorrectValueType` and leaves it unchanged. -/
theorem property_setters_atomic_on_error_witness :
    ((colorTemperatureProperty.setNegativeInt (-7)).1 = Except.error PropertyError.readOnly ∧
      (colorTemperatureProperty.setNegativeInt (-7)).2 = colorTemperatureProperty) ∧
    (sameNumberVariant brightnessProperty.value (Number.positiveInt 3) = false ∧
      (brightnessProperty.setValue (Number.positiveInt 3)).1 =
        Except.error PropertyError.incorrectValueType ∧
      (brightnessProperty.setValue (Number.positiveInt 3)).2 = brightnessProperty) := by
  constructor
  · exact ⟨by decide,
      property_setters_atomic_on_error.2.2.1 colorTemperatureProperty (-7)
        PropertyError.readOnly (by decide)⟩
  · have h := property_setters_atomic_on_error.2.2.2.2.2 brightnessProperty
      (Number.positiveInt 3) (by decide)
    exact ⟨by decide, by simpa [brightnessProperty] using h.1, h.2⟩

/-- C2 counterexample: a `NumberPropertyChanged` event for a known device
and known number property carrying `Float(0.0)` — below the property's
minimum of 1.0 — is rejected by `NumberProperty::set_value` with
`ValueTooSmall` and dropped by the reducer: the map is unchanged and the
stored value does not match the externally observed value, so the reducer
path does *not* bypass min/max validation. -/
theorem reducer_rejects_out_of_bounds_number :
    Store.applyEvent lampMap
        (Event.numberPropertyChanged "d1" "brightness" (Number.float (F64.val 0))) = lampMap ∧
    (brightnessProperty.setValue (Number.float (F64.val 0))).1 =
      Except.error PropertyError.valueTooSmall ∧
    brightnessProperty.value ≠ Number.float (F64.val 0) := by
  decide

/-- C2 (amended): for every `NumberPropertyChanged` event for a known device
and a known number property, the reducer applies the value through
`NumberProperty::set_value`, which enforces the readonly flag, the value
variant and the min/max bounds; when the setter succeeds the new value is
stored, and when it errors the event is dropped and the map (in particular
the stored value) is unchanged. -/
theorem reducer_number_path_validates :
    ∀ (devices : DevMapContents) (did pid : String) (v : Number)
      (dev : Device) (np : NumberProperty),
      alFind devices did = some dev →
      alFind dev.properties pid = some (PropertyD.number np) →
      Store.applyEvent devices (Event.numberPropertyChanged did pid v) =
        (match np.setValue v with
         | (Except.ok _, np2) =>
             alInsert devices did
               { dev with properties := alInsert dev.properties pid (PropertyD.number np2) }
         | (Except.error _, _) => devices) := by
  intro devices did pid v dev np h1 h2
  simp only [Store.applyEvent, reducePropertyChangedEvent, h1, h2, applyNumberSetter]
  rcases hsv : np.setValue v with ⟨r, np2⟩
  cases r <;> simp [hsv]

/-- C2 witness: the amended theorem at the lamp fixture — an in-bounds float
write (7.0) is stored. -/
theorem reducer_number_path_validates_witness :
    alFind lampMap "d1" = some lampDevice ∧
    alFind lampDevice.properties "brightness" = some (PropertyD.number brightnessProperty) ∧
    Store.applyEvent lampMap
        (Event.numberPropertyChanged "d1" "brightness" (Number.float (F64.val 7))) =
      alInsert lampMap "d1"
        { lampDevice with
          properties :=
            alInsert lampDevice.properties "brightness"
              (PropertyD.number { brightnessProperty with value := Number.float (F64.val 7) }) } := by
  refine ⟨by decide, by decide, ?_⟩
  rw [reducer_number_path_validates lampMap "d1" "brightness" (Number.float (F64.val 7))
    lampDevice brightnessProperty (by decide) (by decide)]
  decide

/-- C6: `execute` first evaluates the flow's trigger: an evaluation error
returns `Err(FailedTriggerEvaluation(error))`; an `Ok` value other than
`Boolean(true)` returns `Ok` with the empty report (empty scope, duration
zero) and executes no node (no scheduler command is sent); `Ok(Boolean(true))`
proceeds to walk the flow's body from its start node. -/
theorem execute_gates_on_trigger :
    ∀ (flow : Flow') (context : Context) (elapsed : Duration),
      (∀ e, evaluate flow.trigger context = Except.error e →
        execute flow none context elapsed =
          Except.error (FlowEngineError.failedTriggerEvaluation e)) ∧
      (∀ v, evaluate flow.trigger context = Except.ok v → v ≠ Value.boolean true →
        execute flow none context elapsed = Except.ok (FlowExecutionReport.empty, [])) ∧
      (evaluate flow.trigger context = Except.ok (Value.boolean true) →
        execute flow none context elapsed =
          (walk flow.id flow.startNode context []).map
            (fun p => ({ scope := p.1, duration := elapsed }, p.2))) := by
  intro flow context elapsed
  refine ⟨?_, ?_, ?_⟩
  · intro e h
    simp [execute, h]
  · intro v h hv
    rcases v with b | n | _
    · cases b
      · simp [execute, h]
      · exact absurd rfl hv
    · simp [execute, h]
    · simp [execute, h]
  · intro h
    simp only [execute, h]
    cases hw : walk flow.id flow.startNode context [] with
    | error e => simp [hw, Except.map]
    | ok p => simp [hw, Except.map]

/-- C6 witness: the three trigger outcomes at concrete flows over the sleep
graph — a `Literal(false)` trigger yields the empty report, a trigger whose
evaluation errors yields `FailedTriggerEvaluation`, and a `Literal(true)`
trigger executes the body. -/
theorem execute_gates_on_trigger_witness :
    (evaluate falseTriggerFlow.trigger emptyContext = Except.ok (Value.boolean false) ∧
      execute falseTriggerFlow none emptyContext 3 =
        Except.ok (FlowExecutionReport.empty, [])) ∧
    (evaluate badTriggerFlow.trigger emptyContext =
        Except.error (ExpressionError.unaryOperandTypeMismatch "Not" "Boolean"
          (Expression.literal (Value.number (Number.positiveInt 1)))) ∧
      execute badTriggerFlow none emptyContext 3 =
        Except.error (FlowEngineError.failedTriggerEvaluation
          (ExpressionError.unaryOperandTypeMismatch "Not" "Boolean"
            (Expression.literal (Value.number (Number.positiveInt 1)))))) ∧
    execute sleepFlow none emptyContext 3 =
      (walk sleepFlow.id sleepFlow.startNode emptyContext []).map
        (fun p => ({ scope := p.1, duration := 3 }, p.2)) := by
  refine ⟨⟨rfl, ?_⟩, ⟨rfl, ?_⟩, ?_⟩
  · exact (execute_gates_on_trigger falseTriggerFlow emptyContext 3).2.1
      (Value.boolean false) rfl (by decide)
  · exact (execute_gates_on_trigger badTriggerFlow emptyContext 3).1 _ rfl
  · exact (execute_gates_on_trigger sleepFlow emptyContext 3).2.2 rfl

/-- C8: (1) when the walk reaches a `Sleep(duration)` node with a next node,
it sends exactly one `ScheduleOnce{flow_id, node_id = next.id, delay =
duration}` and terminates with the accumulated scope; (2) a resumed
execution (trigger evaluating true) whose `resume_node_id` names an `End`
node stops immediately with an empty scope and sends nothing; (3) a
`resume_node_id` naming no node fails with `MissingProvidedStartNode`. -/
theorem sleep_schedules_once_and_resume_semantics :
    (∀ (flowId : String) (context : Context) (scope : Scope) (id : String)
        (d : Duration) (next : FlowNode) (v : Value) (rest : List FlowLink),
      walk flowId (FlowNode.mk id (FlowLink.mk next v :: rest) (FlowNodeKind.sleep d))
          context scope =
        Except.ok (scope, [SchedulerCommand.scheduleOnce flowId next.id d])) ∧
    (∀ (flow : Flow') (nid : String) (context : Context) (elapsed : Duration) (n : FlowNode),
      evaluate flow.trigger context = Except.ok (Value.boolean true) →
      alFind flow.nodesById nid = some n →
      n.kind = FlowNodeKind.end' →
      execute flow (some nid) context elapsed =
        Except.ok ({ scope := [], duration := elapsed }, [])) ∧
    (∀ (flow : Flow') (nid : String) (context : Context) (elapsed : Duration),
      evaluate flow.trigger context = Except.ok (Value.boolean true) →
      alFind flow.nodesById nid = none →
      execute flow (some nid) context elapsed =
        Except.error (FlowEngineError.missingProvidedStartNode nid)) := by
  refine ⟨?_, ?_, ?_⟩
  · intro flowId context scope id d next v rest
    rfl
  · intro flow nid context elapsed n h1 h2 h3
    simp [execute, h1, h2, h3]
  · intro flow nid context elapsed h1 h2
    simp [execute, h1, h2]

/-- C8 witness: spec scenario 3 on the concrete sleep flow — the first
execution sends exactly one `ScheduleOnce{flow_id = "id", node_id =
"end_node", delay = 42}` with an empty scope; resuming at `"end_node"`
returns an empty scope and sends nothing; resuming at `"unknown"` fails with
`MissingProvidedStartNode("unknown")`. -/
theorem sleep_schedules_once_and_resume_semantics_witness :
    walk "id" sleepNode emptyContext [] =
      Except.ok (([] : Scope), [SchedulerCommand.scheduleOnce "id" "end_node" 42]) ∧
    execute sleepFlow none emptyContext 3 =
      Except.ok ({ scope := [], duration := 3 },
        [SchedulerCommand.scheduleOnce "id" "end_node" 42]) ∧
    execute sleepFlow (some "end_node") emptyContext 3 =
      Except.ok ({ scope := [], duration := 3 }, []) ∧
    execute sleepFlow (some "unknown") emptyContext 3 =
      Except.error (FlowEngineError.missingProvidedStartNode "unknown") := by
  refine ⟨?_, by decide, ?_, ?_⟩
  · exact sleep_schedules_once_and_resume_semantics.1 "id" emptyContext [] "sleep_node" 42
      sleepEndNode Value.none []
  · exact sleep_schedules_once_and_resume_semantics.2.1 sleepFlow "end_node" emptyContext 3
      sleepEndNode rfl rfl rfl
  · exact sleep_schedules_once_and_resume_semantics.2.2 sleepFlow "unknown" emptyContext 3
      rfl rfl

/-- C5 counterexample: `PositiveInt(1) + NegativeInt(-1)` — whose exact sum
0 is representable as `PositiveInt(0)` — evaluates to
`PositiveInt(u64::MAX)`: the `sum >= 0` branch computes
`1.saturating_add((-1) as u64) = 1.saturating_add(u64::MAX)`, which
saturates. The claimed exact-when-representable addition is violated. -/
theorem number_add_mixed_sign_not_exact :
    Number.add (Number.positiveInt 1) (Number.negativeInt (-1)) = Number.positiveInt u64Max ∧
    Number.positiveInt u64Max ≠ Number.positiveInt 0 := by
  decide

/-- C5 (amended): integer `Number` addition is the exact sum when it is
representable in the result variant and saturates to the variant's bound
otherwise — except that for mixed-variant operands whose `NegativeInt`
payload is strictly negative and whose exact sum is non-negative, the result
is always `PositiveInt(u64::MAX)` (the `sum >= 0` branches saturate on the
two's-complement cast of the negative operand). In particular
`PositiveInt(u64::MAX) + PositiveInt(1) = PositiveInt(u64::MAX)`. -/
theorem number_add_integer_semantics :
    (∀ a b : Nat, a < 2 ^ 64 → b < 2 ^ 64 →
      Number.add (Number.positiveInt a) (Number.positiveInt b) =
        Number.positiveInt (if a + b ≤ u64Max then a + b else u64Max)) ∧
    (∀ a b : Int, i64Min ≤ a → a ≤ i64Max → i64Min ≤ b → b ≤ i64Max →
      Number.add (Number.negativeInt a) (Number.negativeInt b) =
        Number.negativeInt
          (if a + b < i64Min then i64Min else if i64Max < a + b then i64Max else a + b)) ∧
    (∀ (a : Nat) (b : Int), a < 2 ^ 64 → i64Min ≤ b → b ≤ i64Max →
      Number.add (Number.positiveInt a) (Number.negativeInt b) =
        (if (a : Int) + b < 0 then Number.negativeInt ((a : Int) + b)
         else if b < 0 then Number.positiveInt u64Max
         else Number.positiveInt (if a + b.toNat ≤ u64Max then a + b.toNat else u64Max))) ∧
    (∀ (a : Int) (b : Nat), i64Min ≤ a → a ≤ i64Max → b < 2 ^ 64 →
      Number.add (Number.negativeInt a) (Number.positiveInt b) =
        (if a + (b : Int) < 0 then Number.negativeInt (a + (b : Int))
         else if a < 0 then Number.positiveInt u64Max
         else Number.positiveInt (if b + a.toNat ≤ u64Max then b + a.toNat else u64Max))) := by
  refine ⟨?_, ?_, ?_, ?_⟩
  · intro a b ha hb
    simp [Number.add, u64SaturatingAdd, u64Max, Nat.min_def]
  · intro a b ha1 ha2 hb1 hb2
    simp only [Number.add, i64SaturatingAdd, Number.negativeInt.injEq]
    rw [Int.max_def, Int.min_def]
    simp only [i64Min, i64Max] at *
    split_ifs <;> omega
  · intro a b ha hb1 hb2
    simp only [Number.add, u64SaturatingAdd, i64AsU64, i128AsI64, u64Max, Nat.min_def]
    simp only [i64Min, i64Max] at *
    split_ifs <;> simp_all <;> omega
  · intro a b ha1 ha2 hb
    simp only [Number.add, u64SaturatingAdd, i64AsU64, i128AsI64, u64Max, Nat.min_def]
    simp only [i64Min, i64Max] at *
    split_ifs <;> simp_all <;> omega

/-- C5 witness: the amended theorem at concrete operands — saturation at
`u64::MAX` (the claim's own instance), an exact small sum, and the divergent
mixed-sign case. -/
theorem number_add_integer_semantics_witness :
    Number.add (Number.positiveInt u64Max) (Number.positiveInt 1) =
      Number.positiveInt u64Max ∧
    Number.add (Number.positiveInt 2) (Number.positiveInt 3) = Number.positiveInt 5 ∧
    Number.add (Number.positiveInt 5) (Number.negativeInt (-2)) = Number.positiveInt u64Max := by
  refine ⟨?_, ?_, ?_⟩
  · rw [number_add_integer_semantics.1 u64Max 1 (by decide) (by decide)]
    decide
  · rw [number_add_integer_semantics.1 2 3 (by decide) (by decide)]
    decide
  · rw [number_add_integer_semantics.2.2.1 5 (-2) (by decide) (by decide) (by decide)]
    decide

/-- C9: the four comparison operators all evaluate through `compare` (the
first four conjuncts record the operator/predicate correspondence), and
`compare` evaluates both operands strictly with errors propagating (the left
operand's error first), returns `OperandTypeMismatch` when either operand
value is not a `Number`, `ComparisonFailed` when both are `Number`s that
`partial_cmp` cannot order (e.g. a NaN float), and otherwise the `Boolean`
decided by the `Number` ordering through the operator's predicate. -/
theorem comparison_operator_semantics :
    ∀ (lhs rhs : Expression) (context : Context) (cmp : Ordering → Bool),
      (evaluate (Expression.greaterThanOrEqualTo lhs rhs) context =
        compare' lhs rhs (fun o => !(o == Ordering.lt)) context) ∧
      (evaluate (Expression.greaterThan lhs rhs) context =
        compare' lhs rhs (fun o => o == Ordering.gt) context) ∧
      (evaluate (Expression.lessThan lhs rhs) context =
        compare' lhs rhs (fun o => o == Ordering.lt) context) ∧
      (evaluate (Expression.lessThanOrEqualTo lhs rhs) context =
        compare' lhs rhs (fun o => !(o == Ordering.gt)) context) ∧
      (∀ e, evaluate lhs context = Except.error e →
        compare' lhs rhs cmp context = Except.error e) ∧
      (∀ va e, evaluate lhs context = Except.ok va → evaluate rhs context = Except.error e →
        compare' lhs rhs cmp context = Except.error e) ∧
      (∀ va vb, evaluate lhs context = Except.ok va → evaluate rhs context = Except.ok vb →
        ((∀ a, va ≠ Value.number a) ∨ (∀ b, vb ≠ Value.number b)) →
        compare' lhs rhs cmp context =
          Except.error (ExpressionError.operandTypeMismatch "Compare" "Number" lhs rhs)) ∧
      (∀ a b, evaluate lhs context = Except.ok (Value.number a) →
        evaluate rhs context = Except.ok (Value.number b) → Number.pcmp a b = none →
        compare' lhs rhs cmp context =
          Except.error (ExpressionError.comparisonFailed lhs rhs)) ∧
      (∀ a b o, evaluate lhs context = Except.ok (Value.number a) →
        evaluate rhs context = Except.ok (Value.number b) → Number.pcmp a b = some o →
        compare' lhs rhs cmp context = Except.ok (Value.boolean (cmp o))) := by
  intro lhs rhs context cmp
  refine ⟨rfl, rfl, rfl, rfl, ?_, ?_, ?_, ?_, ?_⟩
  · intro e h
    simp [compare', h]
  · intro va e h1 h2
    simp [compare', h1, h2]
  · intro va vb h1 h2 hne
    simp only [compare', h1, h2]
    cases va <;> cases vb <;> try rfl
    rcases hne with h | h
    · exact absurd rfl (h _)
    · exact absurd rfl (h _)
  · intro a b h1 h2 hn
    simp [compare', h1, h2, hn]
  · intro a b o h1 h2 ho
    simp [compare', h1, h2, ho]

/-- C9 witness: `compare` at concrete operands — a left-operand error
propagates, `Boolean > Number` is an operand type mismatch, `NaN < 2` is
`ComparisonFailed`, and `5 > 3` is `Boolean(true)`. -/
theorem comparison_operator_semantics_witness :
    compare' (Expression.not (Expression.literal Value.none))
        (Expression.literal (Value.number (Number.positiveInt 2)))
        (fun o => o == Ordering.gt) emptyContext =
      Except.error (ExpressionError.unaryOperandTypeMismatch "Not" "Boolean"
        (Expression.literal Value.none)) ∧
    compare' (Expression.literal (Value.boolean true))
        (Expression.literal (Value.number (Number.positiveInt 2)))
        (fun o => o == Ordering.gt) emptyContext =
      Except.error (ExpressionError.operandTypeMismatch "Compare" "Number"
        (Expression.literal (Value.boolean true))
        (Expression.literal (Value.number (Number.positiveInt 2)))) ∧
    compare' (Expression.literal (Value.number (Number.float F64.nan)))
        (Expression.literal (Value.number (Number.positiveInt 2)))
        (fun o => o == Ordering.lt) emptyContext =
      Except.error (ExpressionError.comparisonFailed
        (Expression.literal (Value.number (Number.float F64.nan)))
        (Expression.literal (Value.number (Number.positiveInt 2)))) ∧
    compare' (Expression.literal (Value.number (Number.positiveInt 5)))
        (Expression.literal (Value.number (Number.positiveInt 3)))
        (fun o => o == Ordering.gt) emptyContext = Except.ok (Value.boolean true) := by
  refine ⟨?_, ?_, ?_, ?_⟩
  · exact (comparison_operator_semantics _ _ emptyContext _).2.2.2.2.1 _ rfl
  · exact (comparison_operator_semantics _ _ emptyContext _).2.2.2.2.2.2.1
      (Value.boolean true) (Value.number (Number.positiveInt 2)) rfl rfl
      (Or.inl (by intro a h; cases h))
  · exact (comparison_operator_semantics _ _ emptyContext _).2.2.2.2.2.2.2.1
      (Number.float F64.nan) (Number.positiveInt 2) rfl rfl rfl
  · exact (comparison_operator_semantics _ _ emptyContext _).2.2.2.2.2.2.2.2
      (Number.positiveInt 5) (Number.positiveInt 3) Ordering.gt rfl rfl rfl

/-- Looking up a merged write distributes over one report's device entries
(the accumulator supplies the value when the report has none). -/
theorem commandMapLookup_mergeDeviceEntries (cm : CommandMap) (merged : CommandMap) (d p : String)
    (h1 : (cm.map Prod.fst).Nodup)
    (h2 : ∀ props ∈ cm.map Prod.snd, (props.map Prod.fst).Nodup) :
    commandMapLookup (mergeDeviceEntries merged cm) d p =
      match commandMapLookup cm d p with
      | some v => some v
      | none => commandMapLookup merged d p := by
  induction cm generalizing merged with
  | nil => simp [mergeDeviceEntries, commandMapLookup, alFind]
  | cons hd rest ih =>
    obtain ⟨d0, props0⟩ := hd
    simp only [List.map, List.nodup_cons] at h1
    have hp0 : (props0.map Prod.fst).Nodup := h2 props0 (by simp)
    have h2' : ∀ props ∈ rest.map Prod.snd, (props.map Prod.fst).Nodup := by
      intro props hm
      exact h2 props (by simp [hm])
    show commandMapLookup
        (mergeDeviceEntries
          (alInsert merged d0
            (alExtend (match alFind merged d0 with | some m => m | none => []) props0))
          rest) d p = _
    rw [ih _ h1.2 h2']
    by_cases hd0 : d0 = d
    · subst hd0
      have hrest : alFind rest d0 = none :=
        alFind_eq_none_of_not_mem rest d0 h1.1
      have hlook : commandMapLookup rest d0 p = none := by
        simp [commandMapLookup, hrest]
      rw [hlook]
      have hcons : commandMapLookup ((d0, props0) :: rest) d0 p = alFind props0 p := by
        simp [commandMapLookup, alFind]
      rw [hcons]
      have hfound : commandMapLookup
          (alInsert merged d0
            (alExtend (match alFind merged d0 with | some m => m | none => []) props0))
          d0 p =
          alFind (alExtend (match alFind merged d0 with | some m => m | none => []) props0) p := by
        simp [commandMapLookup, alFind_alInsert]
      rw [hfound, alFind_alExtend, alFindLast_eq_alFind props0 p hp0]
      cases hm : alFind merged d0 <;> cases hp : alFind props0 p <;>
        simp [commandMapLookup, hm, hp, alFind]
    · have hcons : commandMapLookup ((d0, props0) :: rest) d p = commandMapLookup rest d p := by
        simp [commandMapLookup, alFind, hd0]
      have hins : commandMapLookup
          (alInsert merged d0
            (alExtend (match alFind merged d0 with | some m => m | none => []) props0))
          d p = commandMapLookup merged d p := by
        simp [commandMapLookup, alFind_alInsert, hd0]
      rw [hcons, hins]

/-- Folding the last-write step from an arbitrary accumulator factors
through the fold from `none`. -/
theorem lastWriteSpec_foldl (reports : List (Except FlowEngineError FlowExecutionReport))
    (d p : String) (acc : Option PropertyValue) :
    reports.foldl
        (fun a r =>
          match reportWrite r d p with
          | some v => some v
          | none => a) acc =
      match reports.foldl
          (fun a r =>
            match reportWrite r d p with
            | some v => some v
            | none => a) none with
      | some v => some v
      | none => acc := by
  induction reports generalizing acc with
  | nil => rfl
  | cons r rest ih =>
    rw [List.foldl_cons, List.foldl_cons, ih, ih
      (match reportWrite r d p with | some v => some v | none => none)]
    cases hls : rest.foldl
        (fun a r =>
          match reportWrite r d p with
          | some v => some v
          | none => a) none <;>
      cases hrw : reportWrite r d p <;> simp [hrw]

/-- The merge fold against an arbitrary accumulator: the merged value of a
(device, property) pair is the reports' last write, falling back to the
accumulator. -/
theorem mergeCommandMaps_foldl (reports : List (Except FlowEngineError FlowExecutionReport))
    (merged : CommandMap) (d p : String)
    (h : ∀ r ∈ reports, reportMapsNodup r) :
    commandMapLookup
        (reports.foldl
          (fun acc r =>
            match r with
            | Except.error _ => acc
            | Except.ok report =>
              match takeFromScope report.scope with
              | none => acc
              | some cm => mergeDeviceEntries acc cm) merged) d p =
      match lastWriteSpec reports d p with
      | some v => some v
      | none => commandMapLookup merged d p := by
  induction reports generalizing merged with
  | nil => simp [lastWriteSpec]
  | cons r rest ih =>
    have hhd := h r (by simp)
    have htl : ∀ r ∈ rest, reportMapsNodup r := fun r hr => h r (by simp [hr])
    have hr2 : lastWriteSpec (r :: rest) d p =
        match lastWriteSpec rest d p with
        | some v => some v
        | none => match reportWrite r d p with | some v => some v | none => none :=
      lastWriteSpec_foldl rest d p _
    rw [List.foldl_cons, ih _ htl, hr2]
    cases r with
    | error e =>
      cases hls : lastWriteSpec rest d p <;> simp [reportWrite]
    | ok rep =>
      cases hts : takeFromScope rep.scope with
      | none =>
        cases hls : lastWriteSpec rest d p <;> simp [reportWrite, hts]
      | some cm =>
        have hhd2 : (cm.map Prod.fst).Nodup ∧
            ∀ props ∈ cm.map Prod.snd, (props.map Prod.fst).Nodup := by
          have hhd3 : match takeFromScope rep.scope with
            | none => True
            | some cm =>
              (cm.map Prod.fst).Nodup ∧
                ∀ props ∈ cm.map Prod.snd, (props.map Prod.fst).Nodup := hhd
          rw [hts] at hhd3
          exact hhd3
        cases hls : lastWriteSpec rest d p <;>
          cases hcl : commandMapLookup cm d p <;>
            simp [reportWrite, hts, hcl,
              commandMapLookup_mergeDeviceEntries cm merged d p hhd2.1 hhd2.2]

/-- C7: merging command maps iterates the flow results in list order,
errored results contribute nothing, and for every (device id, property name)
pair the merged map holds the write of the latest contributing report —
later writes overwrite earlier ones and entries for distinct devices or
property names are preserved (`lastWriteSpec` is written from the spec's
words). The hypothesis states that each report's command map has `HashMap`
key uniqueness. -/
theorem merge_command_maps_last_write_wins :
    ∀ (reports : List (Except FlowEngineError FlowExecutionReport)) (d p : String),
      (∀ r ∈ reports, reportMapsNodup r) →
      commandMapLookup (mergeCommandMaps reports) d p = lastWriteSpec reports d p := by
  intro reports d p h
  have := mergeCommandMaps_foldl reports [] d p h
  rw [show mergeCommandMaps reports = reports.foldl
      (fun acc r =>
        match r with
        | Except.error _ => acc
        | Except.ok report =>
          match takeFromScope report.scope with
          | none => acc
          | some cm => mergeDeviceEntries acc cm) [] from rfl, this]
  cases lastWriteSpec reports d p <;> simp [commandMapLookup, alFind]

/-- C7 witness: spec scenario 5 — two reports writing `D.on` (true then
false) with an errored result in between, the second report also writing
`E.brightness`: the merged map equals the spec-side last write, `D.on` holds
the later `false`, and the distinct `E.brightness` entry is preserved. -/
theorem merge_command_maps_last_write_wins_witness :
    commandMapLookup (mergeCommandMaps [Except.ok reportSetTrue,
        Except.error (FlowEngineError.missingOutgoingNode "x"), Except.ok reportSetFalse])
        "D" "on" =
      lastWriteSpec [Except.ok reportSetTrue,
        Except.error (FlowEngineError.missingOutgoingNode "x"), Except.ok reportSetFalse]
        "D" "on" ∧
    commandMapLookup (mergeCommandMaps [Except.ok reportSetTrue,
        Except.error (FlowEngineError.missingOutgoingNode "x"), Except.ok reportSetFalse])
        "D" "on" = some (PropertyValue.setBooleanValue false) ∧
    commandMapLookup (mergeCommandMaps [Except.ok reportSetTrue,
        Except.error (FlowEngineError.missingOutgoingNode "x"), Except.ok reportSetFalse])
        "E" "brightness" = some (PropertyValue.setNumberValue (Number.positiveInt 7)) := by
  refine ⟨merge_command_maps_last_write_wins _ "D" "on" (by decide), by decide, by decide⟩
